import Mathlib

/-!
BufferHub client, libs/vr/libbufferhub/buffer_hub_client.cpp.

A shallow embedding of `BufferHubBuffer`, `BufferConsumer` and `BufferProducer`.

* C++ `int` is `Int`, `size_t` is `Nat`; the one narrowing conversion of the file,
  `static_cast<int>(size)`, is modelled with explicit arithmetic modulo `2^32`.
* A remote call is modelled by its answer, handed to the operation as an argument, and by the
  request it sends, appended to the ghost log `sent` of the object.
* An out-parameter `LocalHandle*` is an `Option LocalHandle`: `none` is the null pointer,
  `some h` a pointer to a handle currently holding `h`; the operation returns the new pointee.
* `slices_[index]` is the unchecked `std::vector::operator[]`: the lookup is `Option`-valued and
  `none` stands for the out-of-range access, for which the source defines no result.
  `Lock_unguarded` and `Unlock_unguarded` make the outcome of that access a parameter instead:
  the access may fault, or yield the object found in the memory behind the vector.
-/

set_option linter.dupNamespace false

namespace android.dvr

/-! Section: Collaborators declared outside the source file -/

/-- Modelled from the spec: `pdx::Status<T>` is declared outside src/. Section 9 of the spec
describes it as a tagged result carrying either a value or an error code. `!status` is the
`error` case, `status.error()` its code, `status.get()` and `status.take()` the value. -/
inductive Status (α : Type) where
  | ok (value : α)
  | error (code : Int)
  deriving DecidableEq, Repr

/-- A file-descriptor handle (`pdx::LocalHandle`), used for fences: the descriptor number. -/
abbrev LocalHandle := Int

/-- Modelled from the spec: `NativeBufferHandle<LocalHandle>` is declared outside src/. It is
the remote slice descriptor of the spec: it carries the buffer identity `id()` and can be
mapped locally, `Import(&buffer)`, which yields a return code (negative on failure) and the
mapped `IonBuffer`. Each descriptor carries the outcome of its own mapping. -/
structure NativeBufferHandle (B : Type) where
  id : Int
  Import : Int × B
  deriving DecidableEq, Repr

/-- Modelled from the spec: `IonBuffer` and the gralloc usage bits are declared outside src/.
`Lock` is `IonBuffer::Lock(usage, x, y, width, height, address)`: its return code and the
address it stores; `Unlock` is `IonBuffer::Unlock()`. -/
structure Gralloc (B : Type) where
  Lock : B → Int → Int → Int → Int → Int → Int × Nat
  Unlock : B → Int
  GRALLOC_USAGE_SW_READ_RARELY : Nat
  GRALLOC_USAGE_SW_WRITE_RARELY : Nat
  GRALLOC_USAGE_PRIVATE_UNCACHED : Nat

/-- The value of `EIO` in errno.h. -/
def EIO : Int := 5

/-- The value of `HAL_PIXEL_FORMAT_BLOB` in the platform's graphics header. -/
def HAL_PIXEL_FORMAT_BLOB : Int := 0x21

/-- The requests of `BufferHubRPC` sent by the operations modelled here, with their
arguments. -/
inductive Request where
  | GetBuffers
  | CreateBuffer (width height format usage : Int) (metadata_size slice_count : Nat)
  | CreatePersistentBuffer (name : String) (user_id group_id width height format usage : Int)
      (meta_size_bytes slice_count : Nat)
  | GetPersistentBuffer (name : String)
  | ConsumerAcquire (meta_size_bytes : Nat)
  | ProducerPost (ready_fence : LocalHandle) (meta : List Nat) (meta_size_bytes : Nat)
  | ProducerGain
  deriving DecidableEq, Repr

/-- Conversion `static_cast<int>(size)` for a 64-bit `size_t`: the low 32 bits, read as a two's
complement `int`. -/
def static_cast_int (size : Nat) : Int :=
  let low : Nat := size % 2 ^ 32
  if low < 2 ^ 31 then (low : Int) else (low : Int) - 2 ^ 32

/-! Section: BufferHubBuffer -/

/-- The state of a `BufferHubBuffer`: `id_` and `slices_` of the class itself, the error the
base `pdx::Client` was closed with (`none` while it is open), and the ghost log of the
requests sent so far. -/
structure BufferHubBuffer (B : Type) where
  id_ : Int
  slices_ : List B
  closed : Option Int
  sent : List Request
  deriving DecidableEq, Repr

namespace BufferHubBuffer

variable {B : Type}

/-- The constructors `BufferHubBuffer::BufferHubBuffer` of the base class: `id_(-1)`, `slices_`
default-constructed (empty), nothing sent yet. -/
def ctor : BufferHubBuffer B :=
  { id_ := -1, slices_ := [], closed := none, sent := [] }

/-- Modelled from the spec: `pdx::Client::Close(error)` is declared outside src/. The object
is marked closed and remembers the error it was closed with. -/
def Close (self : BufferHubBuffer B) (error : Int) : BufferHubBuffer B :=
  { self with closed := some error }

/-- Modelled from the spec: `InvokeRemoteMethod<Op>(args...)` of `pdx::Client` is declared
outside src/. The request goes out over the channel; the answer is an argument of the
operation that calls it. -/
def InvokeRemoteMethod (self : BufferHubBuffer B) (request : Request) : BufferHubBuffer B :=
  { self with sent := self.sent ++ [request] }

/-- The loop of `ImportBuffer` over `buffer_handles`: each handle is imported in turn and
appended to `ion_buffers`; the first negative return code leaves the function. -/
def importLoop : List (NativeBufferHandle B) → List B → Except Int (List B)
  | [], ion_buffers => .ok ion_buffers
  | handle :: rest, ion_buffers =>
    let ret := handle.Import.1
    let buffer := handle.Import.2
    if ret < 0 then .error ret
    else importLoop rest (ion_buffers ++ [buffer])

/-- Method `int BufferHubBuffer::ImportBuffer()`, given the answer `status` of the remote
`GetBuffers` call: the return code and the object afterwards. -/
def ImportBuffer (self : BufferHubBuffer B) (status : Status (List (NativeBufferHandle B))) :
    Int × BufferHubBuffer B :=
  let self := self.InvokeRemoteMethod Request.GetBuffers
  match status with
  | .error code => (-code, self)
  | .ok [] => (- EIO, self)
  | .ok (first :: rest) =>
    let buffer_handles := first :: rest
    let new_id := first.id
    match importLoop buffer_handles [] with
    | .error ret => (ret, self)
    | .ok ion_buffers => (0, { self with slices_ := ion_buffers, id_ := new_id })

/-- Method `int BufferHubBuffer::Lock(usage, x, y, width, height, address, index)`: the return code
and the stored address of `slices_[index].Lock(...)`. -/
def Lock (g : Gralloc B) (self : BufferHubBuffer B) (usage x y width height : Int)
    (index : Nat) : Option (Int × Nat) :=
  match self.slices_[index]? with
  | none => none
  | some slice => some (g.Lock slice usage x y width height)

/-- Method `int BufferHubBuffer::Unlock(index)`: `slices_[index].Unlock()`. -/
def Unlock (g : Gralloc B) (self : BufferHubBuffer B) (index : Nat) : Option Int :=
  match self.slices_[index]? with
  | none => none
  | some slice => some (g.Unlock slice)

/-- Method `int BufferHubBuffer::GetBlobReadWritePointer(size, addr)`; `Lock` and `Unlock` are called
with the default slice index 0. -/
def GetBlobReadWritePointer (g : Gralloc B) (self : BufferHubBuffer B) (size : Nat) :
    Option (Int × Nat) :=
  let width := static_cast_int size
  let height := 1
  let usage : Int := ((g.GRALLOC_USAGE_SW_READ_RARELY ||| g.GRALLOC_USAGE_SW_WRITE_RARELY |||
    g.GRALLOC_USAGE_PRIVATE_UNCACHED : Nat) : Int)
  match self.Lock g usage 0 0 width height 0 with
  | none => none
  | some (ret, addr) =>
    if ret = 0 then
      match self.Unlock g 0 with
      | none => none
      | some _ => some (ret, addr)
    else some (ret, addr)

/-- Method `int BufferHubBuffer::GetBlobReadOnlyPointer(size, addr)`. -/
def GetBlobReadOnlyPointer (g : Gralloc B) (self : BufferHubBuffer B) (size : Nat) :
    Option (Int × Nat) :=
  let width := static_cast_int size
  let height := 1
  let usage : Int := ((g.GRALLOC_USAGE_SW_READ_RARELY |||
    g.GRALLOC_USAGE_PRIVATE_UNCACHED : Nat) : Int)
  match self.Lock g usage 0 0 width height 0 with
  | none => none
  | some (ret, addr) =>
    if ret = 0 then
      match self.Unlock g 0 with
      | none => none
      | some _ => some (ret, addr)
    else some (ret, addr)

end BufferHubBuffer

/-! Section: BufferConsumer -/

namespace BufferConsumer

variable {B : Type}

/-- Constructor `BufferConsumer::BufferConsumer(LocalChannelHandle channel)`, given the answer
`getBuffers` of the remote `GetBuffers` call made by `ImportBuffer`. -/
def BufferConsumer (getBuffers : Status (List (NativeBufferHandle B))) : BufferHubBuffer B :=
  let self : BufferHubBuffer B := BufferHubBuffer.ctor
  let (ret, self) := self.ImportBuffer getBuffers
  if ret < 0 then self.Close ret else self

/-- Method `int BufferConsumer::Acquire(ready_fence, meta, meta_size_bytes)`, given the answer
`status` of the remote `ConsumerAcquire` call, whose value is the fence the transport stores
in the local `fence` (the metadata bytes are written by the transport into the caller's
buffer, which the method itself neither reads nor writes). Returns the return code, the
pointee of `ready_fence` afterwards, and the object. -/
def Acquire (self : BufferHubBuffer B) (status : Status LocalHandle)
    (ready_fence : Option LocalHandle) (meta_size_bytes : Nat) :
    Int × Option LocalHandle × BufferHubBuffer B :=
  let self := self.InvokeRemoteMethod (Request.ConsumerAcquire meta_size_bytes)
  let ready_fence :=
    match status with
    | .ok fence =>
      match ready_fence with
      | some _ => some fence
      | none => none
    | .error _ => ready_fence
  let ret :=
    match status with
    | .ok _ => 0
    | .error code => -code
  (ret, ready_fence, self)

/-- Method `int BufferConsumer::Acquire(ready_fence)`: `Acquire(ready_fence, nullptr, 0)`. -/
def Acquire1 (self : BufferHubBuffer B) (status : Status LocalHandle)
    (ready_fence : Option LocalHandle) : Int × Option LocalHandle × BufferHubBuffer B :=
  Acquire self status ready_fence 0

end BufferConsumer

/-! Section: BufferProducer -/

namespace BufferProducer

variable {B R : Type}

/-- Constructor `BufferProducer::BufferProducer(width, height, format, usage, metadata_size,
slice_count)`, given the answers of the remote `CreateBuffer` and `GetBuffers` calls. -/
def BufferProducer (status : Status R) (getBuffers : Status (List (NativeBufferHandle B)))
    (width height format usage : Int) (metadata_size slice_count : Nat) : BufferHubBuffer B :=
  let self : BufferHubBuffer B := BufferHubBuffer.ctor
  let self := self.InvokeRemoteMethod
    (Request.CreateBuffer width height format usage metadata_size slice_count)
  match status with
  | .error code => self.Close (-code)
  | .ok _ =>
    let (ret, self) := self.ImportBuffer getBuffers
    if ret < 0 then self.Close ret else self

/-- Constructor `BufferProducer::BufferProducer(name, user_id, group_id, width, height, format,
usage, meta_size_bytes, slice_count)`, given the answers of the remote
`CreatePersistentBuffer` and `GetBuffers` calls. -/
def BufferProducer_persistent (status : Status R)
    (getBuffers : Status (List (NativeBufferHandle B))) (name : String)
    (user_id group_id width height format usage : Int) (meta_size_bytes slice_count : Nat) :
    BufferHubBuffer B :=
  let self : BufferHubBuffer B := BufferHubBuffer.ctor
  let self := self.InvokeRemoteMethod
    (Request.CreatePersistentBuffer name user_id group_id width height format usage
      meta_size_bytes slice_count)
  match status with
  | .error code => self.Close (-code)
  | .ok _ =>
    let (ret, self) := self.ImportBuffer getBuffers
    if ret < 0 then self.Close ret else self

/-- Constructor `BufferProducer::BufferProducer(int usage, size_t size)` (anonymous blob),
given the answers of the remote `CreateBuffer` and `GetBuffers` calls. -/
def BufferProducer_blob (status : Status R) (getBuffers : Status (List (NativeBufferHandle B)))
    (usage : Int) (size : Nat) : BufferHubBuffer B :=
  let self : BufferHubBuffer B := BufferHubBuffer.ctor
  let width := static_cast_int size
  let height := 1
  let format := HAL_PIXEL_FORMAT_BLOB
  let meta_size_bytes := 0
  let slice_count := 1
  let self := self.InvokeRemoteMethod
    (Request.CreateBuffer width height format usage meta_size_bytes slice_count)
  match status with
  | .error code => self.Close (-code)
  | .ok _ =>
    let (ret, self) := self.ImportBuffer getBuffers
    if ret < 0 then self.Close ret else self

/-- Constructor `BufferProducer::BufferProducer(name, user_id, group_id, usage, size)`
(persistent blob), given the answers of the remote `CreatePersistentBuffer` and `GetBuffers`
calls. -/
def BufferProducer_persistent_blob (status : Status R)
    (getBuffers : Status (List (NativeBufferHandle B))) (name : String)
    (user_id group_id usage : Int) (size : Nat) : BufferHubBuffer B :=
  let self : BufferHubBuffer B := BufferHubBuffer.ctor
  let width := static_cast_int size
  let height := 1
  let format := HAL_PIXEL_FORMAT_BLOB
  let meta_size_bytes := 0
  let slice_count := 1
  let self := self.InvokeRemoteMethod
    (Request.CreatePersistentBuffer name user_id group_id width height format usage
      meta_size_bytes slice_count)
  match status with
  | .error code => self.Close (-code)
  | .ok _ =>
    let (ret, self) := self.ImportBuffer getBuffers
    if ret < 0 then self.Close ret else self

/-- Constructor `BufferProducer::BufferProducer(const std::string& name)`, given the answers of
the remote `GetPersistentBuffer` and `GetBuffers` calls. -/
def BufferProducer_name (status : Status R) (getBuffers : Status (List (NativeBufferHandle B)))
    (name : String) : BufferHubBuffer B :=
  let self : BufferHubBuffer B := BufferHubBuffer.ctor
  let self := self.InvokeRemoteMethod (Request.GetPersistentBuffer name)
  match status with
  | .error code => self.Close (-code)
  | .ok _ =>
    let (ret, self) := self.ImportBuffer getBuffers
    if ret < 0 then self.Close ret else self

/-- Constructor `BufferProducer::BufferProducer(LocalChannelHandle channel)`, given the answer
of the remote `GetBuffers` call. -/
def BufferProducer_channel (getBuffers : Status (List (NativeBufferHandle B))) :
    BufferHubBuffer B :=
  let self : BufferHubBuffer B := BufferHubBuffer.ctor
  let (ret, self) := self.ImportBuffer getBuffers
  if ret < 0 then self.Close ret else self

/-- Method `int BufferProducer::Post(ready_fence, meta, meta_size_bytes)`, given the answer
`status` of the remote `ProducerPost` call. The helper `ReturnStatusOrError` is declared
outside src/ and is a parameter. Returns the return code and the object. -/
def Post (ReturnStatusOrError : Status R → Int) (self : BufferHubBuffer B) (status : Status R)
    (ready_fence : LocalHandle) (meta : List Nat) (meta_size_bytes : Nat) :
    Int × BufferHubBuffer B :=
  let self := self.InvokeRemoteMethod (Request.ProducerPost ready_fence meta meta_size_bytes)
  (ReturnStatusOrError status, self)

/-- Method `int BufferProducer::Gain(LocalHandle* release_fence)`, given the answer `status` of
the remote `ProducerGain` call. Returns the return code, the pointee of `release_fence`
afterwards, and the object. -/
def Gain (self : BufferHubBuffer B) (status : Status LocalHandle)
    (release_fence : Option LocalHandle) : Int × Option LocalHandle × BufferHubBuffer B :=
  let self := self.InvokeRemoteMethod Request.ProducerGain
  match status with
  | .error code => (-code, release_fence, self)
  | .ok fence =>
    match release_fence with
    | some _ => (0, some fence, self)
    | none => (0, none, self)

end BufferProducer

/-! Section: States of a constructed object -/

section States

variable {B : Type}

/-- The tail shared by every constructor: `ImportBuffer()`, then `Close(ret)` when it returned
a negative code. The constructors above spell it out as the source does. -/
def importOrClose (self : BufferHubBuffer B) (getBuffers : Status (List (NativeBufferHandle B))) :
    BufferHubBuffer B :=
  let (ret, self) := self.ImportBuffer getBuffers
  if ret < 0 then self.Close ret else self

/-- The object is fully imported from `batch`: it is not closed, its slices are the mappings of
the whole batch, in order, there is at least one, and its id is the id of the first
descriptor. -/
def FullyImported (obj : BufferHubBuffer B) (batch : List (NativeBufferHandle B)) : Prop :=
  obj.closed = none ∧ obj.slices_ ≠ [] ∧ obj.slices_ = batch.map (fun h => h.Import.2) ∧
    batch.head?.map (fun h => h.id) = some obj.id_

/-- The object is closed with a non-zero error code, holds no slice and has the unset id. -/
def ClosedWithError (obj : BufferHubBuffer B) : Prop :=
  (∃ r : Int, r ≠ 0 ∧ obj.closed = some r) ∧ obj.slices_ = [] ∧ obj.id_ = -1

/-- The post-construction invariant: exactly one of the two states, fully imported from the
batch that `GetBuffers` answered or closed with an error; and closed with exactly the code
`ImportBuffer` returns (from any prior state) for that answer when that code is negative and
the create call, if the constructor makes one, succeeded (`created`). -/
def PostConstruction (obj : BufferHubBuffer B) (created : Prop)
    (getBuffers : Status (List (NativeBufferHandle B))) : Prop :=
  (((∃ batch, getBuffers = .ok batch ∧ FullyImported obj batch) ∧ ¬ ClosedWithError obj) ∨
    (ClosedWithError obj ∧ ¬ ∃ batch, getBuffers = .ok batch ∧ FullyImported obj batch)) ∧
  (created → ∀ self : BufferHubBuffer B, (self.ImportBuffer getBuffers).1 < 0 →
    obj.closed = some (self.ImportBuffer getBuffers).1)

/-- The object is the result of one of the seven constructors, for some arguments and some
answers of the remote service (`R` is the reply type of the create and attach calls). -/
def Constructed (R : Type) (obj : BufferHubBuffer B) : Prop :=
  ∃ (status : Status R) (getBuffers : Status (List (NativeBufferHandle B))) (name : String)
    (user_id group_id width height format usage : Int) (metadata_size slice_count size : Nat),
    obj = BufferConsumer.BufferConsumer getBuffers ∨
    obj = BufferProducer.BufferProducer status getBuffers width height format usage
      metadata_size slice_count ∨
    obj = BufferProducer.BufferProducer_persistent status getBuffers name user_id group_id
      width height format usage metadata_size slice_count ∨
    obj = BufferProducer.BufferProducer_blob status getBuffers usage size ∨
    obj = BufferProducer.BufferProducer_persistent_blob status getBuffers name user_id group_id
      usage size ∨
    obj = BufferProducer.BufferProducer_name status getBuffers name ∨
    obj = BufferProducer.BufferProducer_channel getBuffers

/-- A gralloc whose `Lock` succeeds everywhere, with the usage bits of the platform headers;
used for the concrete instances below. -/
def exampleGralloc : Gralloc Nat :=
  { Lock := fun slice _ _ _ _ _ => (0, slice)
    Unlock := fun _ => 0
    GRALLOC_USAGE_SW_READ_RARELY := 0x2
    GRALLOC_USAGE_SW_WRITE_RARELY := 0x20
    GRALLOC_USAGE_PRIVATE_UNCACHED := 0x20000000 }

/-- Method `int BufferHubBuffer::Lock(usage, x, y, width, height, address, index)` with the
outcome of the unchecked access `slices_[index]` made explicit. The source makes no range
test: below `slices_.size()` the access yields the slice; at or beyond it, the access reads
the memory behind the vector, and `beyond index` is what that read gives, `none` when it
faults and `some b` when the memory found there is used as the `IonBuffer` `b`. In both
cases `Lock` of the object is invoked and its result returned. -/
def BufferHubBuffer.Lock_unguarded (g : Gralloc B) (beyond : Nat → Option B)
    (self : BufferHubBuffer B) (usage x y width height : Int) (index : Nat) :
    Option (Int × Nat) :=
  let accessed :=
    match self.slices_[index]? with
    | some slice => some slice
    | none => beyond index
  match accessed with
  | none => none
  | some slice => some (g.Lock slice usage x y width height)

/-- Method `int BufferHubBuffer::Unlock(index)` with the outcome of the unchecked access
`slices_[index]` made explicit, as in `Lock_unguarded`. -/
def BufferHubBuffer.Unlock_unguarded (g : Gralloc B) (beyond : Nat → Option B)
    (self : BufferHubBuffer B) (index : Nat) : Option Int :=
  let accessed :=
    match self.slices_[index]? with
    | some slice => some slice
    | none => beyond index
  match accessed with
  | none => none
  | some slice => some (g.Unlock slice)

end States

/-! Section: The import loop -/

section ImportLoop

variable {B : Type}

theorem importLoop_all_ok (batch : List (NativeBufferHandle B)) (ion_buffers : List B)
    (hall : ∀ h ∈ batch, 0 ≤ h.Import.1) :
    BufferHubBuffer.importLoop batch ion_buffers
      = .ok (ion_buffers ++ batch.map (fun h => h.Import.2)) := by
  induction batch generalizing ion_buffers with
  | nil => simp [BufferHubBuffer.importLoop]
  | cons handle rest ih =>
    have h0 : ¬ handle.Import.1 < 0 := not_lt.mpr (hall handle (List.mem_cons_self _ _))
    have hrest : ∀ h ∈ rest, 0 ≤ h.Import.1 := fun h hm => hall h (List.mem_cons_of_mem _ hm)
    simp [BufferHubBuffer.importLoop, h0, ih _ hrest]

theorem importLoop_error_neg (batch : List (NativeBufferHandle B)) (ion_buffers : List B)
    (ret : Int) (herr : BufferHubBuffer.importLoop batch ion_buffers = .error ret) : ret < 0 := by
  induction batch generalizing ion_buffers with
  | nil => simp [BufferHubBuffer.importLoop] at herr
  | cons handle rest ih =>
    by_cases h0 : handle.Import.1 < 0
    · simp [BufferHubBuffer.importLoop, h0] at herr
      exact herr ▸ h0
    · simp [BufferHubBuffer.importLoop, h0] at herr
      exact ih _ herr

theorem importLoop_fails (batch : List (NativeBufferHandle B)) (ion_buffers : List B)
    (k : Nat) (h : NativeBufferHandle B) (hk : batch[k]? = some h) (hfail : h.Import.1 < 0) :
    ∃ ret, BufferHubBuffer.importLoop batch ion_buffers = .error ret ∧
      ((∀ j x, j < k → batch[j]? = some x → 0 ≤ x.Import.1) → ret = h.Import.1) := by
  induction batch generalizing ion_buffers k with
  | nil => simp at hk
  | cons handle rest ih =>
    by_cases h0 : handle.Import.1 < 0
    · refine ⟨handle.Import.1, by simp [BufferHubBuffer.importLoop, h0], fun hpre => ?_⟩
      cases k with
      | zero =>
        simp at hk
        rw [hk]
      | succ n =>
        have := hpre 0 handle (Nat.succ_pos n) (by simp)
        omega
    · cases k with
      | zero =>
        simp at hk
        exact absurd (hk ▸ hfail) h0
      | succ n =>
        simp at hk
        obtain ⟨ret, hret, hfirst⟩ := ih (ion_buffers ++ [handle.Import.2]) n hk
        refine ⟨ret, by simp [BufferHubBuffer.importLoop, h0, hret], fun hpre => hfirst ?_⟩
        intro j x hj hx
        exact hpre (j + 1) x (Nat.succ_lt_succ hj) (by simpa using hx)

end ImportLoop

/-! Section: ImportBuffer -/

section Import

variable {B : Type}

/-- C1 (import atomicity). For every prior object state and every batch returned by
`GetBuffers` in which the mapping of the descriptor at position `k` fails (negative code),
`ImportBuffer` returns a negative code and leaves `id_`, `slices_` (and the closed mark) as
they were before the call; when `k` is the position at which the loop fails, that is when the
descriptors `0..k-1` were mapped, the code returned is the code of that mapping. On a
first import the object keeps the unset id `-1` and the empty slice list. -/
theorem ImportBuffer_atomic (self : BufferHubBuffer B) (batch : List (NativeBufferHandle B))
    (k : Nat) (h : NativeBufferHandle B) (hk : batch[k]? = some h) (hfail : h.Import.1 < 0) :
    (self.ImportBuffer (.ok batch)).2.id_ = self.id_ ∧
    (self.ImportBuffer (.ok batch)).2.slices_ = self.slices_ ∧
    (self.ImportBuffer (.ok batch)).2.closed = self.closed ∧
    (self.ImportBuffer (.ok batch)).1 < 0 ∧
    ((∀ j x, j < k → batch[j]? = some x → 0 ≤ x.Import.1) →
      (self.ImportBuffer (.ok batch)).1 = h.Import.1) ∧
    ((BufferHubBuffer.ctor : BufferHubBuffer B).ImportBuffer (.ok batch)).2.id_ = -1 ∧
    ((BufferHubBuffer.ctor : BufferHubBuffer B).ImportBuffer (.ok batch)).2.slices_ = [] := by
  obtain ⟨ret, hret, hfirst⟩ := importLoop_fails batch [] k h hk hfail
  have hneg := importLoop_error_neg batch [] ret hret
  cases batch with
  | nil => simp at hk
  | cons first rest =>
    have e : ∀ obj : BufferHubBuffer B, obj.ImportBuffer (.ok (first :: rest))
        = (ret, obj.InvokeRemoteMethod Request.GetBuffers) := by
      intro obj
      simp only [BufferHubBuffer.ImportBuffer, hret]
    rw [e self, e BufferHubBuffer.ctor]
    exact ⟨rfl, rfl, rfl, hneg, hfirst, rfl, rfl⟩

/-- Witness of C1: a batch of three descriptors whose second mapping fails with `-12`,
imported into an object that already holds id 3 and one slice. -/
theorem ImportBuffer_atomic_witness :
    ((⟨3, [55], none, []⟩ : BufferHubBuffer Nat).ImportBuffer
        (.ok [⟨7, (0, 100)⟩, ⟨7, (-12, 0)⟩, ⟨7, (0, 102)⟩])).2.id_ = 3 ∧
    ((⟨3, [55], none, []⟩ : BufferHubBuffer Nat).ImportBuffer
        (.ok [⟨7, (0, 100)⟩, ⟨7, (-12, 0)⟩, ⟨7, (0, 102)⟩])).2.slices_ = [55] ∧
    ((⟨3, [55], none, []⟩ : BufferHubBuffer Nat).ImportBuffer
        (.ok [⟨7, (0, 100)⟩, ⟨7, (-12, 0)⟩, ⟨7, (0, 102)⟩])).1 = -12 :=
  have t := ImportBuffer_atomic (⟨3, [55], none, []⟩ : BufferHubBuffer Nat)
    [⟨7, (0, 100)⟩, ⟨7, (-12, 0)⟩, ⟨7, (0, 102)⟩] 1 ⟨7, (-12, 0)⟩ rfl (by decide)
  ⟨t.1, t.2.1, t.2.2.2.2.1 (by
    intro j x hj hx
    have hj0 : j = 0 := by omega
    subst hj0
    simp at hx
    subst hx
    decide)⟩

/-- C2 (empty-batch rejection). When `GetBuffers` succeeds with zero descriptors,
`ImportBuffer` returns `-EIO`, which is negative and not zero, and leaves `id_`, `slices_` and
the closed mark unchanged. Consequently, for every answer of `GetBuffers` (an error answer
carrying a non-zero code), a return value 0 comes with a non-empty slice list installed. -/
theorem ImportBuffer_empty_batch (self : BufferHubBuffer B)
    (status : Status (List (NativeBufferHandle B)))
    (hcode : ∀ code, status = .error code → code ≠ 0) :
    (self.ImportBuffer (.ok [])).1 = - EIO ∧
    (self.ImportBuffer (.ok [])).1 < 0 ∧
    (self.ImportBuffer (.ok [])).1 ≠ 0 ∧
    (self.ImportBuffer (.ok [])).2.id_ = self.id_ ∧
    (self.ImportBuffer (.ok [])).2.slices_ = self.slices_ ∧
    (self.ImportBuffer (.ok [])).2.closed = self.closed ∧
    ((self.ImportBuffer status).1 = 0 → (self.ImportBuffer status).2.slices_ ≠ []) := by
  have hneg : (- EIO : Int) < 0 := by decide
  have hne : (- EIO : Int) ≠ 0 := by decide
  refine ⟨rfl, hneg, hne, rfl, rfl, rfl, ?_⟩
  cases status with
  | error code =>
    intro h0
    simp [BufferHubBuffer.ImportBuffer] at h0
    exact absurd h0 (hcode code rfl)
  | ok batch =>
    cases batch with
    | nil =>
      intro h0
      simp [BufferHubBuffer.ImportBuffer, EIO] at h0
    | cons first rest =>
      intro h0
      cases hloop : BufferHubBuffer.importLoop (first :: rest) [] with
      | error ret =>
        have hneg := importLoop_error_neg _ _ ret hloop
        simp [BufferHubBuffer.ImportBuffer, hloop] at h0
        omega
      | ok ion_buffers =>
        by_cases h1 : first.Import.1 < 0
        · simp [BufferHubBuffer.importLoop, h1] at hloop
        · by_cases hall : ∀ h ∈ rest, 0 ≤ h.Import.1
          · have hok := importLoop_all_ok (first :: rest) []
              (fun h hm => by
                rcases List.mem_cons.mp hm with rfl | hm
                · exact not_lt.mp h1
                · exact hall h hm)
            rw [hloop] at hok
            simp [BufferHubBuffer.ImportBuffer, hloop]
            injection hok with hok
            simp [hok]
          · push_neg at hall
            obtain ⟨x, hx, hxneg⟩ := hall
            obtain ⟨n, hn⟩ := List.getElem?_of_mem hx
            obtain ⟨ret, hret, _⟩ := importLoop_fails (first :: rest) [] (n + 1) x
              (by simpa using hn) hxneg
            rw [hloop] at hret
            cases hret

/-- Witness of C2: an object holding id 3 and one slice, and a `GetBuffers` answer with the
error code 32. -/
theorem ImportBuffer_empty_batch_witness :
    ((⟨3, [55], none, []⟩ : BufferHubBuffer Nat).ImportBuffer (.ok [])).1 = -5 ∧
    ((⟨3, [55], none, []⟩ : BufferHubBuffer Nat).ImportBuffer (.ok [])).2.slices_ = [55] ∧
    ((⟨3, [55], none, []⟩ : BufferHubBuffer Nat).ImportBuffer (.error 32)).1 ≠ 0 :=
  have t := ImportBuffer_empty_batch (⟨3, [55], none, []⟩ : BufferHubBuffer Nat) (.error 32)
    (by
      intro code hc
      injection hc with hc
      omega)
  ⟨t.1, t.2.2.2.2.1, by decide⟩

/-- C3 (successful import). For every non-empty batch in which every mapping succeeds
(no negative code), `ImportBuffer` returns 0, sets `id_` to the id of the first descriptor and
sets `slices_` to the mappings of the descriptors, same length and same order, whatever id
and slices were installed before. -/
theorem ImportBuffer_success (self : BufferHubBuffer B) (first : NativeBufferHandle B)
    (rest : List (NativeBufferHandle B)) (hall : ∀ h ∈ first :: rest, 0 ≤ h.Import.1) :
    (self.ImportBuffer (.ok (first :: rest))).1 = 0 ∧
    (self.ImportBuffer (.ok (first :: rest))).2.id_ = first.id ∧
    (self.ImportBuffer (.ok (first :: rest))).2.slices_
      = (first :: rest).map (fun h => h.Import.2) ∧
    (self.ImportBuffer (.ok (first :: rest))).2.slices_.length = (first :: rest).length ∧
    (∀ i : Nat, (self.ImportBuffer (.ok (first :: rest))).2.slices_[i]?
      = ((first :: rest)[i]?).map (fun h => h.Import.2)) ∧
    (self.ImportBuffer (.ok (first :: rest))).2.closed = self.closed := by
  have hok := importLoop_all_ok (first :: rest) [] hall
  simp only [List.nil_append] at hok
  have e : self.ImportBuffer (.ok (first :: rest))
      = (0, { self.InvokeRemoteMethod Request.GetBuffers with
              slices_ := (first :: rest).map (fun h => h.Import.2), id_ := first.id }) := by
    simp only [BufferHubBuffer.ImportBuffer, hok]
  rw [e]
  refine ⟨rfl, rfl, rfl, by simp, ?_, rfl⟩
  intro i
  simp only [List.getElem?_map]

/-- Witness of C3: two descriptors of buffer 7, both mapped, replace id 3 and its slice. -/
theorem ImportBuffer_success_witness :
    ((⟨3, [55], none, []⟩ : BufferHubBuffer Nat).ImportBuffer
        (.ok [⟨7, (0, 100)⟩, ⟨7, (4, 101)⟩])).1 = 0 ∧
    ((⟨3, [55], none, []⟩ : BufferHubBuffer Nat).ImportBuffer
        (.ok [⟨7, (0, 100)⟩, ⟨7, (4, 101)⟩])).2.id_ = 7 ∧
    ((⟨3, [55], none, []⟩ : BufferHubBuffer Nat).ImportBuffer
        (.ok [⟨7, (0, 100)⟩, ⟨7, (4, 101)⟩])).2.slices_ = [100, 101] :=
  have t := ImportBuffer_success (⟨3, [55], none, []⟩ : BufferHubBuffer Nat)
    ⟨7, (0, 100)⟩ [⟨7, (4, 101)⟩] (by decide)
  ⟨t.1, t.2.1, t.2.2.1⟩

/-- The return code of `ImportBuffer` depends on the answer of `GetBuffers` only. -/
theorem ImportBuffer_code_indep (self other : BufferHubBuffer B)
    (getBuffers : Status (List (NativeBufferHandle B))) :
    (self.ImportBuffer getBuffers).1 = (other.ImportBuffer getBuffers).1 := by
  cases getBuffers with
  | error code => rfl
  | ok batch =>
    cases batch with
    | nil => rfl
    | cons first rest =>
      simp only [BufferHubBuffer.ImportBuffer]
      cases BufferHubBuffer.importLoop (first :: rest) [] <;> rfl

/-- The two outcomes of `ImportBuffer`: nothing but the request log changes, or the code is 0
and the whole batch, every descriptor of which was mapped, is installed. -/
theorem ImportBuffer_cases (self : BufferHubBuffer B)
    (getBuffers : Status (List (NativeBufferHandle B))) :
    ((self.ImportBuffer getBuffers).2 = self.InvokeRemoteMethod Request.GetBuffers ∧
      ((self.ImportBuffer getBuffers).1 < 0 ∨
        ∃ code, getBuffers = .error code ∧ (self.ImportBuffer getBuffers).1 = -code)) ∨
    (∃ first rest, getBuffers = .ok (first :: rest) ∧ (self.ImportBuffer getBuffers).1 = 0 ∧
      (self.ImportBuffer getBuffers).2 =
        { self.InvokeRemoteMethod Request.GetBuffers with
          slices_ := (first :: rest).map (fun h => h.Import.2), id_ := first.id }) := by
  cases getBuffers with
  | error code => exact Or.inl ⟨rfl, Or.inr ⟨code, rfl, rfl⟩⟩
  | ok batch =>
    cases batch with
    | nil =>
      have hneg : (- EIO : Int) < 0 := by decide
      exact Or.inl ⟨rfl, Or.inl hneg⟩
    | cons first rest =>
      by_cases hall : ∀ h ∈ first :: rest, 0 ≤ h.Import.1
      · have hok := importLoop_all_ok (first :: rest) [] hall
        simp only [List.nil_append] at hok
        have e : self.ImportBuffer (.ok (first :: rest))
            = (0, { self.InvokeRemoteMethod Request.GetBuffers with
                    slices_ := (first :: rest).map (fun h => h.Import.2), id_ := first.id }) := by
          simp only [BufferHubBuffer.ImportBuffer, hok]
        exact Or.inr ⟨first, rest, rfl, by rw [e], by rw [e]⟩
      · push_neg at hall
        obtain ⟨x, hx, hxneg⟩ := hall
        obtain ⟨n, hn⟩ := List.getElem?_of_mem hx
        obtain ⟨ret, hret, _⟩ := importLoop_fails (first :: rest) [] n x hn hxneg
        have hneg := importLoop_error_neg _ _ ret hret
        have e : self.ImportBuffer (.ok (first :: rest))
            = (ret, self.InvokeRemoteMethod Request.GetBuffers) := by
          simp only [BufferHubBuffer.ImportBuffer, hret]
        rw [e]
        exact Or.inl ⟨rfl, Or.inl hneg⟩

end Import

/-! Section: Constructors -/

section Constructors

variable {B R : Type}

theorem importOrClose_eq (self : BufferHubBuffer B)
    (getBuffers : Status (List (NativeBufferHandle B))) :
    importOrClose self getBuffers =
      if (self.ImportBuffer getBuffers).1 < 0
      then (self.ImportBuffer getBuffers).2.Close (self.ImportBuffer getBuffers).1
      else (self.ImportBuffer getBuffers).2 := rfl

/-- The tail of a constructor, run on an open object without slices and with the unset id,
establishes the post-construction invariant. -/
theorem importOrClose_post (self : BufferHubBuffer B)
    (getBuffers : Status (List (NativeBufferHandle B))) (created : Prop)
    (hopen : self.closed = none) (hslices : self.slices_ = []) (hid : self.id_ = -1)
    (hget : ∀ code, getBuffers = .error code → 0 < code) :
    PostConstruction (importOrClose self getBuffers) created getBuffers := by
  rw [importOrClose_eq]
  rcases ImportBuffer_cases self getBuffers with ⟨hstate, hcode⟩ | ⟨first, rest, hgb, hret, hstate⟩
  · have hneg : (self.ImportBuffer getBuffers).1 < 0 := by
      rcases hcode with h | ⟨code, hgb, hret⟩
      · exact h
      · have := hget code hgb
        omega
    rw [if_pos hneg, hstate]
    have hclosed : ClosedWithError
        ((self.InvokeRemoteMethod Request.GetBuffers).Close (self.ImportBuffer getBuffers).1) :=
      ⟨⟨_, ne_of_lt hneg, rfl⟩, hslices, hid⟩
    refine ⟨Or.inr ⟨hclosed, ?_⟩, ?_⟩
    · rintro ⟨batch, _, hfull, _⟩
      simp [BufferHubBuffer.Close] at hfull
    · intro _ other _
      show some (self.ImportBuffer getBuffers).1 = some (other.ImportBuffer getBuffers).1
      rw [ImportBuffer_code_indep self other]
  · have hnot : ¬ (self.ImportBuffer getBuffers).1 < 0 := by omega
    rw [if_neg hnot, hstate]
    refine ⟨Or.inl ⟨⟨first :: rest, hgb, ?_⟩, ?_⟩, ?_⟩
    · exact ⟨hopen, by simp, rfl, rfl⟩
    · rintro ⟨⟨r, _, hr⟩, _⟩
      simp [BufferHubBuffer.InvokeRemoteMethod, hopen] at hr
    · intro _ other hother
      rw [ImportBuffer_code_indep other self] at hother
      omega

/-- A constructor whose create call failed with a positive code leaves an object that
satisfies the post-construction invariant, whatever `GetBuffers` would have answered. -/
theorem closeCreate_post (request : Request) (status : Status R) (code : Int)
    (getBuffers : Status (List (NativeBufferHandle B))) (hstatus : status = .error code)
    (hpos : 0 < code) :
    PostConstruction
      (((BufferHubBuffer.ctor : BufferHubBuffer B).InvokeRemoteMethod request).Close (-code))
      (∃ value, status = .ok value) getBuffers := by
  have hclosed : ClosedWithError
      (((BufferHubBuffer.ctor : BufferHubBuffer B).InvokeRemoteMethod request).Close (-code)) :=
    ⟨⟨-code, by omega, rfl⟩, rfl, rfl⟩
  refine ⟨Or.inr ⟨hclosed, ?_⟩, ?_⟩
  · rintro ⟨batch, _, hfull, _⟩
    simp [BufferHubBuffer.Close] at hfull
  · rintro ⟨value, hvalue⟩
    rw [hstatus] at hvalue
    cases hvalue

/-- C4 (constructor short-circuit on remote failure). In each of the five `BufferProducer`
constructors that first issue a remote create or attach call, when that call answers with an
error status of code `code` the object is closed with `-code`; the only request sent is the
create or attach request, so `ImportBuffer` is not run and no `GetBuffers` request goes out,
whatever the service would have answered to it; `id_` is `-1` and `slices_` is empty. -/
theorem BufferProducer_create_failure (code : Int)
    (getBuffers : Status (List (NativeBufferHandle B))) (name : String)
    (user_id group_id width height format usage : Int)
    (metadata_size slice_count size : Nat) :
    (BufferProducer.BufferProducer (.error code : Status R) getBuffers width height format usage
        metadata_size slice_count
      = ⟨-1, [], some (-code),
          [Request.CreateBuffer width height format usage metadata_size slice_count]⟩) ∧
    (BufferProducer.BufferProducer_persistent (.error code : Status R) getBuffers name user_id
        group_id width height format usage metadata_size slice_count
      = ⟨-1, [], some (-code),
          [Request.CreatePersistentBuffer name user_id group_id width height format usage
            metadata_size slice_count]⟩) ∧
    (BufferProducer.BufferProducer_name (.error code : Status R) getBuffers name
      = ⟨-1, [], some (-code), [Request.GetPersistentBuffer name]⟩) ∧
    (BufferProducer.BufferProducer_blob (.error code : Status R) getBuffers usage size
      = ⟨-1, [], some (-code),
          [Request.CreateBuffer (static_cast_int size) 1 HAL_PIXEL_FORMAT_BLOB usage 0 1]⟩) ∧
    (BufferProducer.BufferProducer_persistent_blob (.error code : Status R) getBuffers
        name user_id group_id usage size
      = ⟨-1, [], some (-code),
          [Request.CreatePersistentBuffer name user_id group_id (static_cast_int size) 1
            HAL_PIXEL_FORMAT_BLOB usage 0 1]⟩) ∧
    Request.GetBuffers ∉ (BufferProducer.BufferProducer (.error code : Status R) getBuffers
        width height format usage metadata_size slice_count).sent ∧
    Request.GetBuffers ∉ (BufferProducer.BufferProducer_persistent (.error code : Status R)
        getBuffers name user_id group_id width height format usage metadata_size
        slice_count).sent ∧
    Request.GetBuffers ∉
      (BufferProducer.BufferProducer_name (.error code : Status R) getBuffers name).sent ∧
    Request.GetBuffers ∉
      (BufferProducer.BufferProducer_blob (.error code : Status R) getBuffers usage size).sent ∧
    Request.GetBuffers ∉ (BufferProducer.BufferProducer_persistent_blob
        (.error code : Status R) getBuffers name user_id group_id usage size).sent := by
  refine ⟨rfl, rfl, rfl, rfl, rfl, ?_, ?_, ?_, ?_, ?_⟩
  · simp [BufferProducer.BufferProducer, BufferHubBuffer.Close,
      BufferHubBuffer.InvokeRemoteMethod, BufferHubBuffer.ctor]
  · simp [BufferProducer.BufferProducer_persistent, BufferHubBuffer.Close,
      BufferHubBuffer.InvokeRemoteMethod, BufferHubBuffer.ctor]
  · simp [BufferProducer.BufferProducer_name, BufferHubBuffer.Close,
      BufferHubBuffer.InvokeRemoteMethod, BufferHubBuffer.ctor]
  · simp [BufferProducer.BufferProducer_blob, BufferHubBuffer.Close,
      BufferHubBuffer.InvokeRemoteMethod, BufferHubBuffer.ctor]
  · simp [BufferProducer.BufferProducer_persistent_blob, BufferHubBuffer.Close,
      BufferHubBuffer.InvokeRemoteMethod, BufferHubBuffer.ctor]

/-- C5 (post-construction invariant). For each of the seven constructors and every behaviour
of the remote service and of the mapper, failed statuses carrying a positive code, the object
is in exactly one of two states: fully imported from the whole `GetBuffers` batch, or closed
with a non-zero code, no slice and id `-1`; and when the create call (if any) succeeds and
`ImportBuffer` returns a negative code, the object is closed with exactly that code. -/
theorem post_construction_invariant (status : Status R)
    (getBuffers : Status (List (NativeBufferHandle B))) (name : String)
    (user_id group_id width height format usage : Int)
    (metadata_size slice_count size : Nat)
    (hstatus : ∀ code, status = .error code → 0 < code)
    (hget : ∀ code, getBuffers = .error code → 0 < code) :
    PostConstruction (BufferConsumer.BufferConsumer getBuffers) True getBuffers ∧
    PostConstruction (BufferProducer.BufferProducer_channel getBuffers) True getBuffers ∧
    PostConstruction (BufferProducer.BufferProducer status getBuffers width height format usage
      metadata_size slice_count) (∃ value, status = .ok value) getBuffers ∧
    PostConstruction (BufferProducer.BufferProducer_persistent status getBuffers name user_id
      group_id width height format usage metadata_size slice_count)
      (∃ value, status = .ok value) getBuffers ∧
    PostConstruction (BufferProducer.BufferProducer_blob status getBuffers usage size)
      (∃ value, status = .ok value) getBuffers ∧
    PostConstruction (BufferProducer.BufferProducer_persistent_blob status getBuffers name
      user_id group_id usage size) (∃ value, status = .ok value) getBuffers ∧
    PostConstruction (BufferProducer.BufferProducer_name status getBuffers name)
      (∃ value, status = .ok value) getBuffers := by
  refine ⟨importOrClose_post _ _ _ rfl rfl rfl hget, importOrClose_post _ _ _ rfl rfl rfl hget,
    ?_, ?_, ?_, ?_, ?_⟩ <;>
  · cases status with
    | error code => exact closeCreate_post _ _ code _ rfl (hstatus code rfl)
    | ok value => exact importOrClose_post _ _ _ rfl rfl rfl hget

/-- Witness of C5: the create call and `GetBuffers` succeed and the one descriptor is mapped,
so the consumer and the blob producer are fully imported. -/
theorem post_construction_invariant_witness :
    PostConstruction (BufferConsumer.BufferConsumer (.ok [⟨7, (0, 100)⟩]) : BufferHubBuffer Nat)
      True (.ok [⟨7, (0, 100)⟩]) ∧
    PostConstruction (BufferProducer.BufferProducer_blob (Status.ok ()) (.ok [⟨7, (0, 100)⟩])
      3 4096 : BufferHubBuffer Nat) (∃ value, Status.ok () = .ok value) (.ok [⟨7, (0, 100)⟩]) :=
  have t := post_construction_invariant (Status.ok ())
    (.ok [⟨7, (0, 100)⟩] : Status (List (NativeBufferHandle Nat))) "buf1" 0 0 64 64 1 3 0 1 4096
    (by intro code h; cases h) (by intro code h; cases h)
  ⟨t.1, t.2.2.2.2.1⟩

/-- The tail of a constructor never leaves a closed object holding slices. -/
theorem importOrClose_closed (self : BufferHubBuffer B)
    (getBuffers : Status (List (NativeBufferHandle B)))
    (hopen : self.closed = none) (hslices : self.slices_ = [])
    (hclosed : (importOrClose self getBuffers).closed ≠ none) :
    (importOrClose self getBuffers).slices_ = [] := by
  rw [importOrClose_eq] at hclosed ⊢
  rcases ImportBuffer_cases self getBuffers with ⟨hstate, _⟩ | ⟨first, rest, _, hret, hstate⟩
  · rw [hstate]
    split <;> exact hslices
  · have hnot : ¬ (self.ImportBuffer getBuffers).1 < 0 := by omega
    rw [if_neg hnot, hstate] at hclosed
    exact absurd hopen hclosed

/-- The tail of a constructor sends exactly one request, `GetBuffers`. -/
theorem importOrClose_sent (self : BufferHubBuffer B)
    (getBuffers : Status (List (NativeBufferHandle B))) :
    (importOrClose self getBuffers).sent = self.sent ++ [Request.GetBuffers] := by
  rw [importOrClose_eq]
  rcases ImportBuffer_cases self getBuffers with ⟨hstate, _⟩ | ⟨first, rest, _, _, hstate⟩
  · rw [hstate]
    split <;> rfl
  · rw [hstate]
    split <;> rfl

/-- An object closed by a constructor holds no slice. -/
theorem Constructed_closed_slices (obj : BufferHubBuffer B) (hobj : Constructed R obj)
    (hclosed : obj.closed ≠ none) : obj.slices_ = [] := by
  obtain ⟨status, getBuffers, name, user_id, group_id, width, height, format, usage,
    metadata_size, slice_count, size, h⟩ := hobj
  rcases h with h | h | h | h | h | h | h
  · subst h
    exact importOrClose_closed _ _ rfl rfl hclosed
  all_goals
    subst h
    first
    | exact importOrClose_closed _ _ rfl rfl hclosed
    | (cases status with
       | error code => rfl
       | ok value => exact importOrClose_closed _ _ rfl rfl hclosed)

end Constructors

/-! Section: Lock and Unlock -/

section Locks

variable {B : Type}

theorem Lock_of_no_slices (g : Gralloc B) (self : BufferHubBuffer B)
    (hslices : self.slices_ = []) (usage x y width height : Int) (index : Nat) :
    self.Lock g usage x y width height index = none := by
  simp [BufferHubBuffer.Lock, hslices]

/-- C6, counterexample. The producer attached by name to a buffer that does not exist (the
attach call answers with the error 2) is closed with `-2`, and `Lock` on slice 0 of it, like
`GetBlobReadWritePointer` and `GetBlobReadOnlyPointer`, yields no return code at all: the
unchecked access `slices_[0]` is out of range. No error code is returned. -/
theorem Lock_closed_counterexample :
    (BufferProducer.BufferProducer_name (Status.error 2 : Status Unit) (.error 2) "buf1"
      : BufferHubBuffer Nat).closed = some (-2) ∧
    (BufferProducer.BufferProducer_name (Status.error 2 : Status Unit) (.error 2) "buf1"
      : BufferHubBuffer Nat).Lock exampleGralloc 3 0 0 16 1 0 = none ∧
    (¬ ∃ r, (BufferProducer.BufferProducer_name (Status.error 2 : Status Unit) (.error 2)
      "buf1" : BufferHubBuffer Nat).Lock exampleGralloc 3 0 0 16 1 0 = some r) ∧
    (BufferProducer.BufferProducer_name (Status.error 2 : Status Unit) (.error 2) "buf1"
      : BufferHubBuffer Nat).GetBlobReadWritePointer exampleGralloc 16 = none ∧
    (BufferProducer.BufferProducer_name (Status.error 2 : Status Unit) (.error 2) "buf1"
      : BufferHubBuffer Nat).GetBlobReadOnlyPointer exampleGralloc 16 = none := by
  refine ⟨rfl, rfl, ?_, rfl, rfl⟩
  rintro ⟨r, hr⟩
  cases hr

/-- C6, as amended. An object closed during construction holds no slice, and `Lock` has no
test for that: for every usage, rectangle and slice index it reaches the unchecked access
`slices_[index]` out of range, so that no return code is defined and no slice is locked;
the same holds for `Unlock`, `GetBlobReadWritePointer` and `GetBlobReadOnlyPointer`. -/
theorem Lock_closed (R : Type) (g : Gralloc B) (obj : BufferHubBuffer B)
    (hobj : Constructed R obj) (hclosed : obj.closed ≠ none)
    (usage x y width height : Int) (index size : Nat) :
    obj.slices_ = [] ∧
    obj.Lock g usage x y width height index = none ∧
    obj.Unlock g index = none ∧
    obj.GetBlobReadWritePointer g size = none ∧
    obj.GetBlobReadOnlyPointer g size = none := by
  have hslices := Constructed_closed_slices obj hobj hclosed
  refine ⟨hslices, Lock_of_no_slices g obj hslices _ _ _ _ _ _, ?_, ?_, ?_⟩
  · simp [BufferHubBuffer.Unlock, hslices]
  · simp [BufferHubBuffer.GetBlobReadWritePointer, Lock_of_no_slices g obj hslices]
  · simp [BufferHubBuffer.GetBlobReadOnlyPointer, Lock_of_no_slices g obj hslices]

/-- Witness of C6: the consumer whose `GetBuffers` call answered with the error 32. -/
theorem Lock_closed_witness :
    (BufferConsumer.BufferConsumer (.error 32) : BufferHubBuffer Nat).closed = some (-32) ∧
    (BufferConsumer.BufferConsumer (.error 32) : BufferHubBuffer Nat).Lock exampleGralloc
      3 0 0 16 1 0 = none ∧
    (BufferConsumer.BufferConsumer (.error 32) : BufferHubBuffer Nat).GetBlobReadOnlyPointer
      exampleGralloc 16 = none :=
  have t := Lock_closed Unit exampleGralloc
    (BufferConsumer.BufferConsumer (.error 32) : BufferHubBuffer Nat)
    ⟨.error 32, .error 32, "buf1", 0, 0, 0, 0, 0, 0, 0, 0, 0, Or.inl rfl⟩ (by decide)
    3 0 0 16 1 0 16
  ⟨rfl, t.2.1, t.2.2.2.2⟩

/-- C7, counterexample. On a consumer imported with one slice, `Lock` and `Unlock` are called
with the slice index 1, which is out of range, and the memory behind the one slice reads as a
buffer whose `Lock` and `Unlock` succeed. No range test intervenes: `Lock` and `Unlock` of
that object are invoked and both calls return 0, which is success, not a failure. -/
theorem Lock_unguarded_counterexample :
    (BufferConsumer.BufferConsumer (.ok [⟨7, (0, 100)⟩]) : BufferHubBuffer Nat).slices_.length
      ≤ 1 ∧
    ((BufferConsumer.BufferConsumer (.ok [⟨7, (0, 100)⟩]) : BufferHubBuffer Nat).Lock_unguarded
      exampleGralloc (fun _ => some 0) 3 0 0 16 1 1).map (fun r => r.1) = some 0 ∧
    (BufferConsumer.BufferConsumer (.ok [⟨7, (0, 100)⟩]) : BufferHubBuffer Nat).Unlock_unguarded
      exampleGralloc (fun _ => some 0) 1 = some 0 ∧
    (¬ ∃ r, (BufferConsumer.BufferConsumer (.ok [⟨7, (0, 100)⟩])
      : BufferHubBuffer Nat).Lock_unguarded exampleGralloc (fun _ => some 0) 3 0 0 16 1 1
        = some r ∧ r.1 < 0) := by
  refine ⟨by decide, rfl, rfl, ?_⟩
  rintro ⟨r, hr, hneg⟩
  have hr0 : r = (0, 0) := by
    have h : some ((0, 0) : Int × Nat) = some r := hr
    injection h with h
    exact h.symm
  rw [hr0] at hneg
  exact absurd hneg (by decide)

/-- C7, as amended. `Lock` and `Unlock` contain no range test: for every object state and every
index, in range or not, they take `slices_[index]` with the unchecked access and invoke `Lock`,
respectively `Unlock`, of the object it yields, returning that result unchanged. Below
`slices_.size()` the object is the slice at that index, whatever lies behind the vector. At
or beyond `slices_.size()` it is the object found behind the vector, and the call yields no
result only when the access itself faults. Every code returned is a code returned by a
buffer: the two methods add no failure of their own. The `Option`-valued `Lock` and `Unlock`
are the case in which every out-of-range access faults. -/
theorem Lock_unguarded_index (g : Gralloc B) (beyond : Nat → Option B)
    (self : BufferHubBuffer B) (usage x y width height : Int) (index : Nat) :
    (∀ hlt : index < self.slices_.length,
      self.Lock_unguarded g beyond usage x y width height index
        = some (g.Lock (self.slices_.get ⟨index, hlt⟩) usage x y width height) ∧
      self.Unlock_unguarded g beyond index
        = some (g.Unlock (self.slices_.get ⟨index, hlt⟩))) ∧
    (self.slices_.length ≤ index → ∀ b, beyond index = some b →
      self.Lock_unguarded g beyond usage x y width height index
        = some (g.Lock b usage x y width height) ∧
      self.Unlock_unguarded g beyond index = some (g.Unlock b)) ∧
    (self.slices_.length ≤ index → beyond index = none →
      self.Lock_unguarded g beyond usage x y width height index = none ∧
      self.Unlock_unguarded g beyond index = none) ∧
    (∀ r, self.Lock_unguarded g beyond usage x y width height index = some r →
      ∃ b, r = g.Lock b usage x y width height) ∧
    (∀ r, self.Unlock_unguarded g beyond index = some r → ∃ b, r = g.Unlock b) ∧
    self.Lock g usage x y width height index
      = self.Lock_unguarded g (fun _ => none) usage x y width height index ∧
    self.Unlock g index = self.Unlock_unguarded g (fun _ => none) index := by
  refine ⟨fun hlt => ?_, fun hge b hb => ?_, fun hge hb => ?_, fun r hr => ?_, fun r hr => ?_,
    ?_, ?_⟩
  · simp [BufferHubBuffer.Lock_unguarded, BufferHubBuffer.Unlock_unguarded,
      List.getElem?_eq_getElem hlt]
  · simp [BufferHubBuffer.Lock_unguarded, BufferHubBuffer.Unlock_unguarded,
      List.getElem?_eq_none hge, hb]
  · simp [BufferHubBuffer.Lock_unguarded, BufferHubBuffer.Unlock_unguarded,
      List.getElem?_eq_none hge, hb]
  · unfold BufferHubBuffer.Lock_unguarded at hr
    cases hlook : self.slices_[index]? with
    | some slice =>
      simp only [hlook] at hr
      injection hr with hr
      exact ⟨slice, hr.symm⟩
    | none =>
      simp only [hlook] at hr
      cases hb : beyond index with
      | none => simp [hb] at hr
      | some b =>
        simp only [hb] at hr
        injection hr with hr
        exact ⟨b, hr.symm⟩
  · unfold BufferHubBuffer.Unlock_unguarded at hr
    cases hlook : self.slices_[index]? with
    | some slice =>
      simp only [hlook] at hr
      injection hr with hr
      exact ⟨slice, hr.symm⟩
    | none =>
      simp only [hlook] at hr
      cases hb : beyond index with
      | none => simp [hb] at hr
      | some b =>
        simp only [hb] at hr
        injection hr with hr
        exact ⟨b, hr.symm⟩
  · unfold BufferHubBuffer.Lock BufferHubBuffer.Lock_unguarded
    cases self.slices_[index]? <;> rfl
  · unfold BufferHubBuffer.Unlock BufferHubBuffer.Unlock_unguarded
    cases self.slices_[index]? <;> rfl

/-- Witness of C7: an object with the slices 100 and 101. Index 1 locks the slice 101; index 2
is out of range and locks the object 7 found behind the vector. -/
theorem Lock_unguarded_index_witness :
    (⟨7, [100, 101], none, []⟩ : BufferHubBuffer Nat).Lock_unguarded exampleGralloc
      (fun _ => some 7) 3 0 0 16 1 1 = some (0, 101) ∧
    (⟨7, [100, 101], none, []⟩ : BufferHubBuffer Nat).Lock_unguarded exampleGralloc
      (fun _ => some 7) 3 0 0 16 1 2 = some (0, 7) :=
  ⟨((Lock_unguarded_index exampleGralloc (fun _ => some 7)
      (⟨7, [100, 101], none, []⟩ : BufferHubBuffer Nat) 3 0 0 16 1 1).1 (by decide)).1,
   ((Lock_unguarded_index exampleGralloc (fun _ => some 7)
      (⟨7, [100, 101], none, []⟩ : BufferHubBuffer Nat) 3 0 0 16 1 2).2.1 (by decide) 7 rfl).1⟩

end Locks

/-! Section: Acquire, Post and Gain -/

section Ownership

variable {B R : Type}

/-- C8, counterexample. A consumer of a buffer created as a blob, whose configured metadata
size is 0, calls `Acquire` with `meta_size_bytes = 8`; the remote service answers with
success and the fence 9. `Acquire` returns 0, not an error, and hands the fence out. -/
theorem Acquire_size_mismatch_counterexample :
    (8 : Nat) ≠ 0 ∧
    (BufferConsumer.Acquire
      (BufferConsumer.BufferConsumer (.ok [⟨7, (0, 100)⟩]) : BufferHubBuffer Nat)
      (.ok 9) (some (-1)) 8).1 = 0 ∧
    (BufferConsumer.Acquire
      (BufferConsumer.BufferConsumer (.ok [⟨7, (0, 100)⟩]) : BufferHubBuffer Nat)
      (.ok 9) (some (-1)) 8).2.1 = some 9 := by
  decide

/-- C8, as amended. `Acquire` and `Post` make no local test of `meta_size_bytes`: whatever its
value, `Acquire` sends it in the `ConsumerAcquire` request and returns 0 when the remote call
succeeds and `-code` when it fails with `code`, and `Post` sends it, with the fence and the
metadata, in the `ProducerPost` request and returns what `ReturnStatusOrError` makes of the
remote answer; the return code is the same for any two values of `meta_size_bytes` that get
the same answer. Neither changes `id_`, `slices_` or the closed mark of the object. -/
theorem Acquire_Post_forward_size (ReturnStatusOrError : Status R → Int)
    (self : BufferHubBuffer B) (fence : LocalHandle) (code : Int)
    (answer : Status LocalHandle) (posted : Status R)
    (ready_fence : Option LocalHandle) (post_fence : LocalHandle) (bytes : List Nat)
    (meta_size_bytes other_size : Nat) :
    (BufferConsumer.Acquire self (.ok fence) ready_fence meta_size_bytes).1 = 0 ∧
    (BufferConsumer.Acquire self (.error code) ready_fence meta_size_bytes).1 = -code ∧
    (BufferConsumer.Acquire self answer ready_fence meta_size_bytes).1
      = (BufferConsumer.Acquire self answer ready_fence other_size).1 ∧
    (BufferConsumer.Acquire self answer ready_fence meta_size_bytes).2.2
      = { self with sent := self.sent ++ [Request.ConsumerAcquire meta_size_bytes] } ∧
    (BufferProducer.Post ReturnStatusOrError self posted post_fence bytes meta_size_bytes).1
      = ReturnStatusOrError posted ∧
    (BufferProducer.Post ReturnStatusOrError self posted post_fence bytes meta_size_bytes).1
      = (BufferProducer.Post ReturnStatusOrError self posted post_fence bytes other_size).1 ∧
    (BufferProducer.Post ReturnStatusOrError self posted post_fence bytes meta_size_bytes).2
      = { self with
          sent := self.sent ++ [Request.ProducerPost post_fence bytes meta_size_bytes] } := by
  refine ⟨rfl, rfl, ?_, ?_, rfl, rfl, rfl⟩
  · cases answer <;> rfl
  · cases answer <;> rfl

/-- C9, counterexample. The anonymous-blob constructor called with the size `2^31` sends a
`CreateBuffer` request whose width is `-2^31`, which is not the size. -/
theorem blob_width_counterexample :
    (BufferProducer.BufferProducer_blob (Status.error 12 : Status Unit) (.error 12)
      3 2147483648 : BufferHubBuffer Nat).sent
      = [Request.CreateBuffer (-2147483648) 1 33 3 0 1] ∧
    (-2147483648 : Int) ≠ ((2147483648 : Nat) : Int) := by
  decide

/-- The constructors with a create call send that request first. -/
theorem create_sent_head (request : Request) (status : Status R)
    (getBuffers : Status (List (NativeBufferHandle B))) :
    (match status with
      | .error code =>
        ((BufferHubBuffer.ctor : BufferHubBuffer B).InvokeRemoteMethod request).Close (-code)
      | .ok _ =>
        importOrClose ((BufferHubBuffer.ctor : BufferHubBuffer B).InvokeRemoteMethod request)
          getBuffers).sent.head? = some request := by
  cases status with
  | error code => rfl
  | ok value =>
    show (importOrClose _ getBuffers).sent.head? = some request
    rw [importOrClose_sent]
    rfl

theorem static_cast_int_range (size : Nat) :
    -2 ^ 31 ≤ static_cast_int size ∧ static_cast_int size < 2 ^ 31 ∧
    (2 ^ 32 : Int) ∣ static_cast_int size - (size : Int) := by
  unfold static_cast_int
  have hlt : size % 2 ^ 32 < 2 ^ 32 := Nat.mod_lt _ (by norm_num)
  have hdiv : (size : Int) = ((size % 2 ^ 32 : Nat) : Int) + 2 ^ 32 * ((size / 2 ^ 32 : Nat) : Int) := by
    have := Nat.mod_add_div size (2 ^ 32)
    exact_mod_cast this.symm
  simp only []
  split
  · refine ⟨by omega, by omega, ⟨-((size / 2 ^ 32 : Nat) : Int), ?_⟩⟩
    rw [hdiv]
    push_cast
    ring_nf
  · refine ⟨by omega, by omega, ⟨-((size / 2 ^ 32 : Nat) : Int) - 1, ?_⟩⟩
    rw [hdiv]
    push_cast
    ring_nf

/-- C9, as amended. For every usage and every size, the anonymous-blob and the persistent-blob
constructor send first a create request with height 1, the BLOB pixel format, metadata size 0,
slice count 1 and the usage (and name, user, group) unchanged; its width is
`static_cast<int>(size)`: a signed 32-bit value congruent to the size modulo `2^32`, equal to
the size exactly when the size is below `2^31`. -/
theorem blob_create_request (status : Status R)
    (getBuffers : Status (List (NativeBufferHandle B))) (name : String)
    (user_id group_id usage : Int) (size : Nat) :
    (BufferProducer.BufferProducer_blob status getBuffers usage size).sent.head?
      = some (Request.CreateBuffer (static_cast_int size) 1 HAL_PIXEL_FORMAT_BLOB usage 0 1) ∧
    (BufferProducer.BufferProducer_persistent_blob status getBuffers name user_id group_id
        usage size).sent.head?
      = some (Request.CreatePersistentBuffer name user_id group_id (static_cast_int size) 1
          HAL_PIXEL_FORMAT_BLOB usage 0 1) ∧
    (-2 ^ 31 ≤ static_cast_int size ∧ static_cast_int size < 2 ^ 31) ∧
    (2 ^ 32 : Int) ∣ static_cast_int size - (size : Int) ∧
    (static_cast_int size = (size : Int) ↔ size < 2 ^ 31) := by
  have hr := static_cast_int_range size
  refine ⟨create_sent_head _ status getBuffers, create_sent_head _ status getBuffers,
    ⟨hr.1, hr.2.1⟩, hr.2.2, ⟨fun h => ?_, fun h => ?_⟩⟩
  · have := hr.2.1
    rw [h] at this
    exact_mod_cast this
  · unfold static_cast_int
    have hmod : size % 2 ^ 32 = size := Nat.mod_eq_of_lt (by omega)
    simp only [hmod, if_pos h]

/-- Witness of C9: a blob of 4096 bytes is requested with the width 4096. -/
theorem blob_create_request_witness :
    (BufferProducer.BufferProducer_blob (Status.ok ()) (.ok [⟨7, (0, 100)⟩]) 3 4096
      : BufferHubBuffer Nat).sent.head? = some (Request.CreateBuffer 4096 1 33 3 0 1) ∧
    static_cast_int 4096 = 4096 :=
  have t := blob_create_request (Status.ok ())
    (.ok [⟨7, (0, 100)⟩] : Status (List (NativeBufferHandle Nat))) "buf1" 0 0 3 4096
  ⟨t.1, t.2.2.2.2.2 (by decide)⟩

/-- C10 (fence hand-off and frame on failure). With a failed remote call carrying a positive
code: `Gain` returns 0 exactly when the remote `ProducerGain` call succeeds, and then a
non-null `release_fence` receives the fence of the remote answer (a null one stays null);
when the call fails with `code` it returns `-code`, which is negative, and the pointee of
`release_fence` is unchanged. The same holds for `Acquire`, `ConsumerAcquire` and
`ready_fence`. -/
theorem Gain_Acquire_fence (self : BufferHubBuffer B) (status : Status LocalHandle)
    (pointee : Option LocalHandle) (meta_size_bytes : Nat)
    (hpos : ∀ code, status = .error code → 0 < code) :
    ((BufferProducer.Gain self status pointee).1 = 0 ↔ ∃ fence, status = .ok fence) ∧
    (∀ fence, status = .ok fence →
      (BufferProducer.Gain self status pointee).1 = 0 ∧
      (pointee ≠ none → (BufferProducer.Gain self status pointee).2.1 = some fence) ∧
      (pointee = none → (BufferProducer.Gain self status pointee).2.1 = none)) ∧
    (∀ code, status = .error code →
      (BufferProducer.Gain self status pointee).1 = -code ∧
      (BufferProducer.Gain self status pointee).1 < 0 ∧
      (BufferProducer.Gain self status pointee).2.1 = pointee) ∧
    ((BufferConsumer.Acquire self status pointee meta_size_bytes).1 = 0
      ↔ ∃ fence, status = .ok fence) ∧
    (∀ fence, status = .ok fence →
      (BufferConsumer.Acquire self status pointee meta_size_bytes).1 = 0 ∧
      (pointee ≠ none →
        (BufferConsumer.Acquire self status pointee meta_size_bytes).2.1 = some fence) ∧
      (pointee = none →
        (BufferConsumer.Acquire self status pointee meta_size_bytes).2.1 = none)) ∧
    (∀ code, status = .error code →
      (BufferConsumer.Acquire self status pointee meta_size_bytes).1 = -code ∧
      (BufferConsumer.Acquire self status pointee meta_size_bytes).1 < 0 ∧
      (BufferConsumer.Acquire self status pointee meta_size_bytes).2.1 = pointee) := by
  cases status with
  | ok fence =>
    cases pointee <;>
      simp [BufferProducer.Gain, BufferConsumer.Acquire]
  | error code =>
    have hc := hpos code rfl
    have hne : code ≠ 0 := by omega
    cases pointee <;>
      simp [BufferProducer.Gain, BufferConsumer.Acquire, hne, hc]

/-- Witness of C10: the remote call fails with the code 16 and the caller's fence 4 stays. -/
theorem Gain_Acquire_fence_witness :
    (BufferProducer.Gain (⟨7, [100], none, []⟩ : BufferHubBuffer Nat) (.error 16) (some 4)).1
      = -16 ∧
    (BufferProducer.Gain (⟨7, [100], none, []⟩ : BufferHubBuffer Nat) (.error 16) (some 4)).2.1
      = some 4 ∧
    (BufferConsumer.Acquire (⟨7, [100], none, []⟩ : BufferHubBuffer Nat) (.error 16) (some 4)
      0).2.1 = some 4 :=
  have t := Gain_Acquire_fence (⟨7, [100], none, []⟩ : BufferHubBuffer Nat) (.error 16)
    (some 4) 0 (by
      intro code h
      injection h with h
      omega)
  ⟨(t.2.2.1 16 rfl).1, (t.2.2.1 16 rfl).2.2, (t.2.2.2.2.2 16 rfl).2.2⟩

end Ownership

end android.dvr
